import Mathlib

/-!
Shallow embedding of i3-quickterm (src/main.py): a drop-down terminal toggle
for the i3 window manager.  Window-manager interaction is modelled as a trace
of issued commands; the i3 tree is a list of containers; rational numbers
stand for the Python floats of the geometry computation.
-/

namespace I3Quickterm

/-- An i3 rectangle (`ws['rect']`): integer position and size. -/
structure Rect where
  x : Int
  y : Int
  width : Int
  height : Int
  deriving DecidableEq

/-- A workspace as returned by `conn.get_workspaces()`: name, focused flag, rect. -/
structure Workspace where
  name : String
  focused : Bool
  rect : Rect
  deriving DecidableEq

/-- A container of the i3 tree (`conn.get_tree().descendents()`): id, node type,
name, the list of marks, and the name of the workspace holding it. -/
structure Con where
  id : Nat
  type : String
  name : String
  marks : List String
  workspaceName : String
  deriving DecidableEq

/-- Python `int()` applied to a nonnegative/negative rational: truncation
toward zero, as in `int(wheight*ratio)` of `pop_it`. -/
def pyint (q : ℚ) : ℤ :=
  if 0 ≤ q then ⌊q⌋ else ⌈q⌉

/-- `MARK_QT.format(shell)`: the mark `quickterm_<shell>`. -/
def MARK_QT (shell : String) : String :=
  "quickterm_" ++ shell

/-- `term_title(shell)`: the window title `<shell> - i3-quickterm`. -/
def term_title (shell : String) : String :=
  shell ++ " - i3-quickterm"

/-- The commands/sequences `toggle_quickterm` and its helpers issue to i3.
`exec` launches the terminal; `mark` marks the focused window;
`moveBack` is `<selector> floating enable, move scratchpad`;
`scratchpadShow` is the `pop_it` sequence
`[con_mark=<m>], resize set <w> px <h> px, move absolute position <x>px <y>px,
move scratchpad, scratchpad show`. -/
inductive Cmd where
  | exec (term cmdTitle cmdClass shellCmd : String)
  | mark (m : String)
  | moveBack (selector : String)
  | scratchpadShow (m : String) (width height posx posy : Int)
  deriving DecidableEq

/-- `move_back(conn, selector)`. -/
def move_back (selector : String) : Cmd :=
  Cmd.moveBack selector

/-- `pop_it(conn, mark_name, pos, ratio)` restricted to its geometry output:
asserts `pos in ('top', 'bottom')` (modelled as `none` on assertion failure),
reads the focused workspace rect `ws`, and issues the show sequence with
`width = ws.width`, `height = int(ws.height * ratio)`, `posx = ws.x`, and
`posy = ws.y + ws.height - height - 6` for `bottom`, `posy = ws.y` for `top`. -/
def pop_it (ws : Rect) (mark_name : String) (pos : String) (ratio : ℚ) : Option Cmd :=
  if pos = "top" ∨ pos = "bottom" then
    let width := ws.width
    let height := pyint ((ws.height : ℚ) * ratio)
    let posx := ws.x
    let posy := if pos = "bottom" then ws.y + ws.height - height - 6 else ws.y
    some (Cmd.scratchpadShow mark_name width height posx posy)
  else
    none

/-- `get_current_workspace(conn)`: takes element `[0]` of the focused
workspaces and element `[0]` of the tree nodes of type `workspace` with the
same name; a Python `IndexError` on an empty list is modelled as `none`. -/
def get_current_workspace (workspaces : List Workspace) (tree : List Con) :
    Option (Workspace × Con) :=
  match workspaces.filter (fun w => w.focused) with
  | [] => none
  | ws :: _ =>
    match tree.filter (fun c => c.type == "workspace" && c.name == ws.name) with
    | [] => none
    | n :: _ => some (ws, n)

/-- The configuration fields the core reads, fully resolved:
`conf['term']`, `conf['pos']`, `conf['ratio']`, the `conf['shells']`
name → launch-command mapping, and whether `conf['history']` is set. -/
structure Conf where
  term : String
  pos : String
  ratio : ℚ
  shells : List (String × String)
  history : Bool
  deriving DecidableEq

/-- `conf['term'] + '-quickterm'`: the window class passed to the terminal. -/
def quickterm_classname (conf : Conf) : String :=
  conf.term ++ "-quickterm"

/-- The `exec` command built in the spawn branch of `toggle_quickterm`:
the terminal program, `title = term_title(shell)`,
`classname = conf['term'] + '-quickterm'` and the shell's launch command
(`conf['shells'][shell]`); the shlex/format string assembly is abstracted to
the tuple of values substituted into the template. -/
def build_term_cmd (conf : Conf) (shell : String) : Cmd :=
  Cmd.exec conf.term (term_title shell) (quickterm_classname conf)
    ((conf.shells.lookup shell).getD "")

/-- A `window::focus` event: the reported `window.window_instance`
(`None` is modelled as `none`). -/
structure FocusEvent where
  window_instance : Option String
  deriving DecidableEq

/-- The `on_window_focus` handler registered in the spawn branch: with the
captured `done` flag, if not yet done and the focused window's instance equals
the synthesized classname or the bare terminal program, set `done`, issue
`mark quickterm_<shell>`, `move_back` on the mark selector, and `pop_it`;
otherwise do nothing. Returns the new `done` flag and the issued commands
(`ws` is the focused workspace rect read by `pop_it`). -/
def on_window_focus (conf : Conf) (shell : String) (ws : Rect)
    (done : Bool) (ev : FocusEvent) : Bool × List Cmd :=
  if ¬done ∧ (ev.window_instance = some (quickterm_classname conf) ∨
              ev.window_instance = some conf.term) then
    let shell_mark := MARK_QT shell
    (true,
      Cmd.mark shell_mark ::
      Cmd.moveBack ("[con_mark=" ++ shell_mark ++ "]") ::
      (pop_it ws shell_mark conf.pos conf.ratio).toList)
  else
    (done, [])

/-- The result of `conn.main(timeout=2)`: the final `done` flag, the commands
issued by the handler across all dispatched events, and how many events were
dispatched to the handler. -/
structure LoopResult where
  done : Bool
  cmds : List Cmd
  dispatched : Nat
  deriving DecidableEq

/-- `conn.main(timeout=2)`: dispatches every `window::focus` event delivered
before the timeout (the list `events`) to the handler — nothing in the source
calls `main_quit`, so the loop stops only when the timeout elapses — and
returns normally. -/
def conn_main (handler : Bool → FocusEvent → Bool × List Cmd) :
    Bool → List FocusEvent → LoopResult
  | done, [] => ⟨done, [], 0⟩
  | done, e :: rest =>
    let r1 := handler done e
    let r2 := conn_main handler r1.1 rest
    ⟨r2.done, r1.2 ++ r2.cmds, r2.dispatched + 1⟩

/-- Modelled from the spec: the `runEventLoop` contract of §4.1/§4.4, which
"dispatches each to onEvent until either onEvent signals completion or the
timeout elapses" — i.e. it stops dispatching as soon as the handler signals
completion.  Used only to compare against the source's `conn_main`. -/
def runEventLoopSpec (handler : Bool → FocusEvent → Bool × List Cmd) :
    Bool → List FocusEvent → LoopResult
  | done, [] => ⟨done, [], 0⟩
  | done, e :: rest =>
    let r1 := handler done e
    if r1.1 then ⟨true, r1.2, 1⟩
    else
      let r2 := runEventLoopSpec handler r1.1 rest
      ⟨r2.done, r1.2 ++ r2.cmds, r2.dispatched + 1⟩

/-- `tree.find_marked(MARK_QT.format(shell))`: the containers carrying the
exact mark. -/
def find_marked (tree : List Con) (mark : String) : List Con :=
  tree.filter (fun c => c.marks.contains mark)

/-- `ws_tree.find_marked(MARK_QT_PATTERN)` with pattern `quickterm_.*`:
the containers carrying any mark starting with `quickterm_`. -/
def find_marked_qt_pattern (tree : List Con) : List Con :=
  tree.filter (fun c =>
    c.marks.any (fun m => List.isPrefixOf "quickterm_".toList m.toList))

/-- `toggle_quickterm(conf, shell)` as the trace of i3 commands it issues.
`tree` is the queried tree, `curWs` the focused workspace, `events` the focus
events delivered before the 2 s timeout.  If no container carries
`quickterm_<shell>`: `exec` the built terminal command and run the event loop
with `on_window_focus`.  Otherwise: `move_back` the first found container by
`con_id`, then, only if its workspace differs from the current one, `pop_it`. -/
def toggle_quickterm (conf : Conf) (shell : String) (tree : List Con)
    (curWs : Workspace) (events : List FocusEvent) : List Cmd :=
  let shell_mark := MARK_QT shell
  match find_marked tree shell_mark with
  | [] =>
    build_term_cmd conf shell ::
      (conn_main (on_window_focus conf shell curWs.rect) false events).cmds
  | qt :: _ =>
    move_back ("[con_id=" ++ toString qt.id ++ "]") ::
      (if qt.workspaceName ≠ curWs.name then
        (pop_it curWs.rect shell_mark conf.pos conf.ratio).toList
      else [])

/-- The observable effects of `toggle_quickterm_select`: i3 commands, running
the selection menu fed with the candidate list, and rewriting the history
file contents. -/
inductive Eff where
  | i3 (c : Cmd)
  | runMenu (entries : List String)
  | histWrite (entries : List String)
  deriving DecidableEq

/-- Lexicographic comparison of character lists, standing for Python's
string ordering in `sorted`. -/
def charListLe : List Char → List Char → Bool
  | [], _ => true
  | _ :: _, [] => false
  | a :: as, b :: bs => if a < b then true else if b < a then false else charListLe as bs

/-- String comparison used by `sorted`. -/
def str_le (a b : String) : Bool :=
  charListLe a.toList b.toList

/-- Insert a string into an ascending list, keeping it sorted. -/
def insert_sorted (s : String) : List String → List String
  | [] => [s]
  | t :: rest => if str_le s t then s :: t :: rest else t :: insert_sorted s rest

/-- `sorted(conf['shells'].keys())`: the shell names in ascending order. -/
def sorted_shell_names (conf : Conf) : List String :=
  (conf.shells.map Prod.fst).foldr insert_sorted []

/-- `set(hist_list) == set(conf['shells'].keys())`: the history list is kept
only when it holds exactly the configured shell names. -/
def hist_valid (conf : Conf) (histList : List String) : Bool :=
  histList.all (fun s => (conf.shells.map Prod.fst).contains s) &&
  (conf.shells.map Prod.fst).all (fun s => histList.contains s)

/-- `hist_list or sorted(conf['shells'].keys())`: the candidate list fed to
the menu — the parsed history order when present and valid, else the sorted
shell names. -/
def menu_entries (conf : Conf) (histList : Option (List String)) : List String :=
  (match histList with
   | some l => if hist_valid conf l then some l else none
   | none => none).getD (sorted_shell_names conf)

/-- `toggle_quickterm_select(conf)` as a trace of effects.  `wsCons` is the
subtree of the current workspace, `histList` the parsed history-file contents
(`none` when absent or unparsable), `menuRet` the menu's stripped stdout.
If a quickterm-marked container is on the current workspace: `move_back` it
and return.  Otherwise run the menu over `menu_entries`; a selection that is
not a configured shell returns with no further effect; a configured selection
rewrites the history (when a history file is set) and runs `toggle_quickterm`. -/
def toggle_quickterm_select (conf : Conf) (wsCons : List Con)
    (histList : Option (List String)) (menuRet : String) (tree : List Con)
    (curWs : Workspace) (events : List FocusEvent) : List Eff :=
  match find_marked_qt_pattern wsCons with
  | qt :: _ => [Eff.i3 (move_back ("[con_id=" ++ toString qt.id ++ "]"))]
  | [] =>
    let shells := menu_entries conf histList
    Eff.runMenu shells ::
      (if (conf.shells.map Prod.fst).contains menuRet then
        (if conf.history then
          [Eff.histWrite (menuRet :: shells.filter (fun s => s ≠ menuRet))]
        else []) ++
        (toggle_quickterm conf menuRet tree curWs events).map Eff.i3
      else [])

/-- The exit code of `main`: no shell argument → selector path, exit 0;
a shell not in `conf['shells']` → log the error and return 1; otherwise
toggle and return 0. -/
def main_exit_code (conf : Conf) (shellArg : Option String) : Nat :=
  match shellArg with
  | none => 0
  | some s => if (conf.shells.map Prod.fst).contains s then 0 else 1

/-- The timeout passed to `conn.main` in the spawn branch, in seconds. -/
def spawn_timeout_seconds : Nat := 2

/-- Name of i3's scratchpad workspace: windows in the holding area report it
as their workspace. -/
def scratch_ws : String := "__i3_scratch"

/-- Net effect of one `toggle_quickterm` invocation for a fixed shell on the
workspace locations of the windows marked `quickterm_<shell>` (abstracting
the command trace): `cur` is the focused workspace name, `spawnOk` whether
the spawn's matching focus event arrived before the timeout.  No tagged
window → spawn; the handler (when it runs) marks exactly the one new window
and shows it on `cur`, else the window stays untagged.  A tagged window on a
workspace other than `cur` (including the scratchpad) → `move_back` then
`pop_it`, ending on `cur`.  A tagged window on `cur` → `move_back` only,
ending in the scratchpad. -/
def toggleStep (cur : String) (spawnOk : Bool) (st : List String) : List String :=
  match st with
  | [] => if spawnOk then [cur] else []
  | w :: rest => (if w ≠ cur then cur else scratch_ws) :: rest

/-- Number of `mark` commands in a trace. -/
def markCount (cs : List Cmd) : Nat :=
  (cs.filter fun c => match c with | Cmd.mark _ => true | _ => false).length

/-- Example configuration: urxvt terminal, overlay at the top with ratio 1/4,
two shells, history file configured. -/
def confEx : Conf :=
  ⟨"urxvt", "top", 1/4, [("shell", "/bin/bash"), ("js", "node")], true⟩

/-- Example focused workspace `1`, full-HD at the origin. -/
def wsEx : Workspace := ⟨"1", true, ⟨0, 0, 1920, 1080⟩⟩

/-- Example container marked `quickterm_shell`, living on workspace `1`. -/
def conEx : Con := ⟨3, "con", "term", ["quickterm_shell"], "1"⟩

/-- Example container marked `quickterm_shell`, living on workspace `2`. -/
def conElse : Con := ⟨4, "con", "term", ["quickterm_shell"], "2"⟩

/-- Example container with no marks (a spawned terminal that was never
tagged). -/
def conUntagged : Con := ⟨7, "con", "term", [], "1"⟩

/-- A focus event for the expected quickterm window class. -/
def evMatch : FocusEvent := ⟨some "urxvt-quickterm"⟩

/-- A focus event for an unrelated window. -/
def evOther : FocusEvent := ⟨some "firefox"⟩

/-! ### Helper lemmas -/

theorem on_window_focus_after_done (conf : Conf) (shell : String) (ws : Rect)
    (e : FocusEvent) : on_window_focus conf shell ws true e = (true, []) := by
  simp [on_window_focus]

theorem conn_main_cons (handler : Bool → FocusEvent → Bool × List Cmd)
    (done : Bool) (e : FocusEvent) (rest : List FocusEvent) :
    conn_main handler done (e :: rest) =
      ⟨(conn_main handler (handler done e).1 rest).done,
       (handler done e).2 ++ (conn_main handler (handler done e).1 rest).cmds,
       (conn_main handler (handler done e).1 rest).dispatched + 1⟩ := rfl

theorem conn_main_after_done (handler : Bool → FocusEvent → Bool × List Cmd)
    (hinert : ∀ e, handler true e = (true, [])) (events : List FocusEvent) :
    conn_main handler true events = ⟨true, [], events.length⟩ := by
  induction events with
  | nil => rfl
  | cons e rest ih => simp [conn_main_cons, hinert, ih]

theorem conn_main_dispatched_eq (handler : Bool → FocusEvent → Bool × List Cmd)
    (done : Bool) (events : List FocusEvent) :
    (conn_main handler done events).dispatched = events.length := by
  induction events generalizing done with
  | nil => rfl
  | cons e rest ih => simp [conn_main_cons, ih]

theorem markCount_append (a b : List Cmd) :
    markCount (a ++ b) = markCount a + markCount b := by
  simp [markCount, List.filter_append]

theorem markCount_pop_it (ws : Rect) (m pos : String) (r : ℚ) :
    markCount (pop_it ws m pos r).toList = 0 := by
  unfold pop_it
  split <;> simp [markCount]

theorem markCount_cons_mark (m : String) (l : List Cmd) :
    markCount (Cmd.mark m :: l) = markCount l + 1 := by
  simp [markCount, List.filter_cons]

theorem markCount_cons_moveBack (s : String) (l : List Cmd) :
    markCount (Cmd.moveBack s :: l) = markCount l := by
  simp [markCount, List.filter_cons]

theorem on_window_focus_match (conf : Conf) (shell : String) (ws : Rect)
    (e : FocusEvent)
    (hc : e.window_instance = some (quickterm_classname conf) ∨
          e.window_instance = some conf.term) :
    on_window_focus conf shell ws false e =
      (true, Cmd.mark (MARK_QT shell) ::
        Cmd.moveBack ("[con_mark=" ++ MARK_QT shell ++ "]") ::
        (pop_it ws (MARK_QT shell) conf.pos conf.ratio).toList) := by
  simp [on_window_focus, hc]

theorem on_window_focus_no_match (conf : Conf) (shell : String) (ws : Rect)
    (e : FocusEvent)
    (hc : ¬(e.window_instance = some (quickterm_classname conf) ∨
            e.window_instance = some conf.term)) :
    on_window_focus conf shell ws false e = (false, []) := by
  simp [on_window_focus, hc]

theorem conn_main_markCount_le_one (conf : Conf) (shell : String) (ws : Rect)
    (events : List FocusEvent) :
    markCount (conn_main (on_window_focus conf shell ws) false events).cmds ≤ 1 := by
  induction events with
  | nil => simp [conn_main, markCount]
  | cons e rest ih =>
    by_cases hc : (e.window_instance = some (quickterm_classname conf) ∨
                   e.window_instance = some conf.term)
    · rw [conn_main_cons, on_window_focus_match conf shell ws e hc]
      rw [conn_main_after_done _ (on_window_focus_after_done conf shell ws)]
      simp [markCount_cons_mark, markCount_cons_moveBack, markCount_pop_it]
    · rw [conn_main_cons, on_window_focus_no_match conf shell ws e hc]
      simpa using ih

theorem conn_main_no_match (conf : Conf) (shell : String) (ws : Rect)
    (events : List FocusEvent)
    (h : ∀ e ∈ events, ¬(e.window_instance = some (quickterm_classname conf) ∨
                         e.window_instance = some conf.term)) :
    conn_main (on_window_focus conf shell ws) false events =
      ⟨false, [], events.length⟩ := by
  induction events with
  | nil => rfl
  | cons e rest ih =>
    rw [conn_main_cons, on_window_focus_no_match conf shell ws e (h e (by simp))]
    rw [ih (fun x hx => h x (by simp [hx]))]
    simp

theorem toggleStep_length_le (cur : String) (b : Bool) (st : List String)
    (h : st.length ≤ 1) : (toggleStep cur b st).length ≤ 1 := by
  cases st with
  | nil => cases b <;> simp [toggleStep]
  | cons w rest => simpa [toggleStep] using h

theorem toggleStep_foldl_le (steps : List (String × Bool)) (st : List String)
    (h : st.length ≤ 1) :
    (steps.foldl (fun s p => toggleStep p.1 p.2 s) st).length ≤ 1 := by
  induction steps generalizing st with
  | nil => simpa
  | cons p rest ih => exact ih _ (toggleStep_length_le p.1 p.2 st h)

/-! ### Claim theorems -/

/-- C1: a toggle request for a configured shell performs exactly one of three
actions depending on the queried tree: with no container marked
`quickterm_<shell>`, it spawns (the `exec` of the built terminal command,
followed only by what the registered focus handler issues); with a marked
container on the current workspace, it issues only the move-to-holding-area
command for that container; with a marked container on a different workspace,
it moves it to the holding area and immediately re-shows it with the computed
geometry on the current workspace. -/
theorem toggle_quickterm_three_cases (conf : Conf) (shell : String)
    (tree : List Con) (curWs : Workspace) (events : List FocusEvent) :
    (find_marked tree (MARK_QT shell) = [] →
      toggle_quickterm conf shell tree curWs events =
        build_term_cmd conf shell ::
          (conn_main (on_window_focus conf shell curWs.rect) false events).cmds) ∧
    (∀ qt rest, find_marked tree (MARK_QT shell) = qt :: rest →
      qt.workspaceName = curWs.name →
      toggle_quickterm conf shell tree curWs events =
        [Cmd.moveBack ("[con_id=" ++ toString qt.id ++ "]")]) ∧
    (∀ qt rest, find_marked tree (MARK_QT shell) = qt :: rest →
      qt.workspaceName ≠ curWs.name →
      conf.pos = "top" ∨ conf.pos = "bottom" →
      toggle_quickterm conf shell tree curWs events =
        [Cmd.moveBack ("[con_id=" ++ toString qt.id ++ "]"),
         Cmd.scratchpadShow (MARK_QT shell) curWs.rect.width
           (pyint ((curWs.rect.height : ℚ) * conf.ratio)) curWs.rect.x
           (if conf.pos = "bottom" then
              curWs.rect.y + curWs.rect.height -
                pyint ((curWs.rect.height : ℚ) * conf.ratio) - 6
            else curWs.rect.y)]) := by
  refine ⟨?_, ?_, ?_⟩
  · intro h
    simp only [toggle_quickterm]
    rw [h]
  · intro qt rest h heq
    simp only [toggle_quickterm]
    rw [h]
    simp [move_back, heq]
  · intro qt rest h hne hpos
    simp only [toggle_quickterm]
    rw [h]
    simp only [move_back, hne, ne_eq, not_false_iff, if_true, ite_not]
    rw [pop_it, if_pos hpos]
    simp [hne]

/-- Witness for C1: the three branches at concrete inputs — empty tree (spawn,
no events), a tagged window on the current workspace (hide only), and a tagged
window on another workspace (hide then show at the computed geometry). -/
theorem toggle_quickterm_three_cases_witness :
    toggle_quickterm confEx "shell" [] wsEx [] = [build_term_cmd confEx "shell"] ∧
    toggle_quickterm confEx "shell" [conEx] wsEx [] = [Cmd.moveBack "[con_id=3]"] ∧
    toggle_quickterm confEx "shell" [conElse] wsEx [] =
      [Cmd.moveBack "[con_id=4]",
       Cmd.scratchpadShow "quickterm_shell" 1920 270 0 0] := by
  have h := toggle_quickterm_three_cases confEx "shell"
  refine ⟨?_, ?_, ?_⟩
  · rw [(h [] wsEx []).1 (by decide)]
    rfl
  · rw [(h [conEx] wsEx []).2.1 conEx [] (by decide) (by decide)]
    decide
  · rw [(h [conElse] wsEx []).2.2 conElse [] (by decide) (by decide) (Or.inl rfl)]
    have hpy : pyint ((1080 : ℚ) * (1/4)) = 270 := by
      simp only [pyint]
      norm_num
    simp only [confEx, wsEx, conElse, MARK_QT]
    norm_num [hpy]
    try decide

/-- C2 counterexample: the height of the issued geometry is Python
`int(wheight*ratio)` — truncation — not `round(wheight × ratio)`: for the
workspace rectangle (0, 0, 1000, 1080) and ratio 333/1000 the issued height
is 359 while rounding gives 360. -/
theorem pop_it_height_truncates_not_rounds :
    pop_it ⟨0, 0, 1000, 1080⟩ "quickterm_shell" "top" (333/1000) =
      some (Cmd.scratchpadShow "quickterm_shell" 1000 359 0 0) ∧
    round ((1080 : ℚ) * (333/1000)) = (360 : ℤ) ∧ (359 : ℤ) ≠ 360 := by
  refine ⟨?_, ?_, by decide⟩
  · simp only [pop_it, pyint]
    norm_num
    try decide
  · norm_num [round_eq]

/-- C2 (amended: height is the truncation ⌊wheight × ratio⌋ of the product,
not its rounding): for every workspace rectangle with nonnegative height,
ratio r ∈ (0,1] and edge top/bottom, the issued overlay geometry has
width = workspace width and height = ⌊height × r⌋; with edge top the position
is the workspace origin, with edge bottom it is
(x, y + h − height − 6), so the overlay's bottom edge sits exactly 6 px above
the workspace bottom; at workspace (0,0,1920,1080) and r = 1/4 the geometry
is (0,0,1920,270) for top and position (0,804), size (1920,270) for bottom. -/
theorem pop_it_geometry (ws : Rect) (r : ℚ) (m : String)
    (hr0 : 0 < r) (_hr1 : r ≤ 1) (hh : 0 ≤ ws.height) :
    pop_it ws m "top" r =
      some (Cmd.scratchpadShow m ws.width ⌊(ws.height : ℚ) * r⌋ ws.x ws.y) ∧
    pop_it ws m "bottom" r =
      some (Cmd.scratchpadShow m ws.width ⌊(ws.height : ℚ) * r⌋ ws.x
        (ws.y + ws.height - ⌊(ws.height : ℚ) * r⌋ - 6)) ∧
    (ws.y + ws.height - ⌊(ws.height : ℚ) * r⌋ - 6) + ⌊(ws.height : ℚ) * r⌋ + 6 =
      ws.y + ws.height ∧
    pop_it ⟨0, 0, 1920, 1080⟩ "quickterm_shell" "top" (1/4) =
      some (Cmd.scratchpadShow "quickterm_shell" 1920 270 0 0) ∧
    pop_it ⟨0, 0, 1920, 1080⟩ "quickterm_shell" "bottom" (1/4) =
      some (Cmd.scratchpadShow "quickterm_shell" 1920 270 0 804) := by
  have hq : (0 : ℚ) ≤ (ws.height : ℚ) * r := by positivity
  have hp : pyint ((ws.height : ℚ) * r) = ⌊(ws.height : ℚ) * r⌋ := by
    simp [pyint, hq]
  refine ⟨?_, ?_, by ring, ?_, ?_⟩
  · rw [pop_it, if_pos (Or.inl rfl), hp]
    simp
  · rw [pop_it, if_pos (Or.inr rfl), hp]
    simp
  · simp only [pop_it, pyint]
    norm_num
    try decide
  · simp only [pop_it, pyint]
    norm_num
    try decide

/-- Witness for C2's amended theorem at workspace (0,0,1920,1080), r = 1/4. -/
theorem pop_it_geometry_witness :
    pop_it ⟨0, 0, 1920, 1080⟩ "m" "top" (1/4) =
      some (Cmd.scratchpadShow "m" 1920 ⌊(((1080 : Int) : ℚ)) * (1/4)⌋ 0 0) :=
  (pop_it_geometry ⟨0, 0, 1920, 1080⟩ (1/4) "m" (by norm_num) (by norm_num)
    (by norm_num)).1

/-- C3: starting from no tagged window, toggling twice on the same workspace
goes NoWindow → tagged and visible on the current workspace → tagged and
hidden in the holding area, and no sequence of toggles reachable from the
untagged state ever leaves two live windows tagged `quickterm_<shell>`. -/
theorem quickterm_tag_unique (cur : String) (ok : Bool) :
    (∀ steps : List (String × Bool),
      (steps.foldl (fun st p => toggleStep p.1 p.2 st) []).length ≤ 1) ∧
    toggleStep cur true [] = [cur] ∧
    toggleStep cur ok [cur] = [scratch_ws] := by
  refine ⟨fun steps => toggleStep_foldl_le steps [] (by simp), rfl, ?_⟩
  simp [toggleStep]

/-- C4 counterexample: after the first focus event matches and the handler
signals completion (`done = true`), the source's event loop still dispatches
the following event — it does not terminate as soon as the handler signals
completion, unlike the loop the claim describes, which would dispatch only
one event here. -/
theorem event_loop_not_ended_by_completion :
    (conn_main (on_window_focus confEx "shell" wsEx.rect) false
        [evMatch, evOther]).done = true ∧
    (conn_main (on_window_focus confEx "shell" wsEx.rect) false
        [evMatch, evOther]).dispatched = 2 ∧
    (runEventLoopSpec (on_window_focus confEx "shell" wsEx.rect) false
        [evMatch, evOther]).dispatched = 1 :=
  ⟨by decide, by decide, by decide⟩

/-- C4 (amended: the loop runs until the timeout in all cases — the handler's
completion flag does not end it, it only makes the handler act no further):
the bounded event loop dispatches every delivered window-focus event to the
handler, returns normally whether or not a match occurred, and once the
handler has signalled completion it issues nothing on later events. -/
theorem conn_main_runs_to_timeout (conf : Conf) (shell : String) (ws : Rect)
    (done : Bool) (events : List FocusEvent) :
    (conn_main (on_window_focus conf shell ws) done events).dispatched =
      events.length ∧
    (∀ e, on_window_focus conf shell ws true e = (true, [])) :=
  ⟨conn_main_dispatched_eq _ done events, on_window_focus_after_done conf shell ws⟩

/-- C5: when no delivered focus event matches within the 2 s (= 2000 ms)
timeout, the event loop ends with `done` still false having issued no command
(in particular no `mark`), and a subsequent toggle over a tree in which no
container carries `quickterm_<shell>` — the spawned-but-untagged window
included — spawns again instead of reusing it. -/
theorem spawn_timeout_leaves_untagged (conf : Conf) (shell : String)
    (events : List FocusEvent) (tree : List Con) (curWs : Workspace)
    (hnm : ∀ e ∈ events, ¬(e.window_instance = some (quickterm_classname conf) ∨
                           e.window_instance = some conf.term))
    (hun : ∀ c ∈ tree, c.marks.contains (MARK_QT shell) = false) :
    conn_main (on_window_focus conf shell curWs.rect) false events =
      ⟨false, [], events.length⟩ ∧
    toggle_quickterm conf shell tree curWs events = [build_term_cmd conf shell] ∧
    spawn_timeout_seconds * 1000 = 2000 := by
  have hloop := conn_main_no_match conf shell curWs.rect events hnm
  have hfm : find_marked tree (MARK_QT shell) = [] := by
    simp only [find_marked, List.filter_eq_nil_iff]
    intro c hc
    simpa using hun c hc
  refine ⟨hloop, ?_, rfl⟩
  simp only [toggle_quickterm]
  rw [hfm, hloop]

/-- Witness for C5: one non-matching focus event, a tree holding only the
untagged spawned terminal. -/
theorem spawn_timeout_leaves_untagged_witness :
    conn_main (on_window_focus confEx "shell" wsEx.rect) false [evOther] =
      ⟨false, [], 1⟩ ∧
    toggle_quickterm confEx "shell" [conUntagged] wsEx [evOther] =
      [build_term_cmd confEx "shell"] ∧
    spawn_timeout_seconds * 1000 = 2000 :=
  spawn_timeout_leaves_untagged confEx "shell" [evOther] [conUntagged] wsEx
    (by decide) (by decide)

/-- C6: the spawn builds the terminal command with title
`<shell> - i3-quickterm` and window class `<conf.term>-quickterm`; the focus
handler treats a window as the spawned one exactly when its reported instance
equals that class or the bare terminal program, in which case it issues
`mark quickterm_<shell>`, then the move-to-holding-area command, then the
show-with-geometry sequence; across all delivered events at most one `mark`
is ever issued (one-shot). -/
theorem spawn_command_and_handler_one_shot (conf : Conf) (shell : String)
    (ws : Rect) :
    build_term_cmd conf shell =
      Cmd.exec conf.term (shell ++ " - i3-quickterm") (conf.term ++ "-quickterm")
        ((conf.shells.lookup shell).getD "") ∧
    (∀ ev : FocusEvent,
      on_window_focus conf shell ws false ev =
        if ev.window_instance = some (quickterm_classname conf) ∨
           ev.window_instance = some conf.term then
          (true, Cmd.mark (MARK_QT shell) ::
            Cmd.moveBack ("[con_mark=" ++ MARK_QT shell ++ "]") ::
            (pop_it ws (MARK_QT shell) conf.pos conf.ratio).toList)
        else (false, [])) ∧
    (∀ events,
      markCount (conn_main (on_window_focus conf shell ws) false events).cmds ≤ 1) := by
  refine ⟨rfl, ?_, fun events => conn_main_markCount_le_one conf shell ws events⟩
  intro ev
  by_cases hc : (ev.window_instance = some (quickterm_classname conf) ∨
                 ev.window_instance = some conf.term)
  · rw [if_pos hc, on_window_focus_match conf shell ws ev hc]
  · rw [if_neg hc, on_window_focus_no_match conf shell ws ev hc]

/-- C7 counterexample: with two focused workspaces reported,
`get_current_workspace` does not fail at all — it silently returns the first
focused workspace — contradicting the claim that zero or multiple focused
workspaces raise a LogicError. -/
theorem get_current_workspace_two_focused :
    get_current_workspace
      [⟨"1", true, ⟨0, 0, 10, 10⟩⟩, ⟨"2", true, ⟨0, 0, 10, 10⟩⟩]
      [⟨1, "workspace", "1", [], "1"⟩] =
      some (⟨"1", true, ⟨0, 0, 10, 10⟩⟩, ⟨1, "workspace", "1", [], "1"⟩) := by
  decide

/-- C7 (amended: the function indexes `[0]` of the focused-workspace list, so
zero focused workspaces raise an uncaught IndexError — modelled as `none` —
while more than one focused workspace is not detected: the first is returned
with its matching tree node, no LogicError exists): characterization of
`get_current_workspace` on every input. -/
theorem get_current_workspace_first_focused (workspaces : List Workspace)
    (tree : List Con) :
    (workspaces.filter (fun w => w.focused) = [] →
      get_current_workspace workspaces tree = none) ∧
    (∀ w rest, workspaces.filter (fun w => w.focused) = w :: rest →
      (tree.filter (fun c => c.type == "workspace" && c.name == w.name) = [] →
        get_current_workspace workspaces tree = none) ∧
      (∀ n nrest,
        tree.filter (fun c => c.type == "workspace" && c.name == w.name) =
          n :: nrest →
        get_current_workspace workspaces tree = some (w, n))) := by
  refine ⟨?_, ?_⟩
  · intro h
    simp only [get_current_workspace]
    rw [h]
  · intro w rest h
    constructor
    · intro h2
      simp only [get_current_workspace, h, h2]
    · intro n nrest h2
      simp only [get_current_workspace, h, h2]

/-- Witness for C7's amended theorem: no focused workspace gives `none`; one
focused workspace with its tree node is returned. -/
theorem get_current_workspace_first_focused_witness :
    get_current_workspace [⟨"1", false, ⟨0, 0, 10, 10⟩⟩] [] = none ∧
    get_current_workspace [⟨"1", true, ⟨0, 0, 10, 10⟩⟩]
        [⟨1, "workspace", "1", [], "1"⟩] =
      some (⟨"1", true, ⟨0, 0, 10, 10⟩⟩, ⟨1, "workspace", "1", [], "1"⟩) := by
  constructor
  · exact (get_current_workspace_first_focused [⟨"1", false, ⟨0, 0, 10, 10⟩⟩] []).1
      (by decide)
  · exact ((get_current_workspace_first_focused _ _).2 _ [] (by decide)).2 _ []
      (by decide)

/-- C8 counterexample: a ratio of 2, outside (0, 1], is not surfaced as a
configuration error anywhere — nothing in the code validates the ratio — and
`pop_it`'s geometry computation runs with it, producing an overlay twice the
workspace height, contradicting the claim that the computation is never
executed for an invalid configuration. -/
theorem pop_it_executes_for_invalid_ratio :
    pop_it ⟨0, 0, 1920, 1080⟩ "quickterm_shell" "top" 2 =
      some (Cmd.scratchpadShow "quickterm_shell" 1920 2160 0 0) := by
  simp only [pop_it, pyint]
  norm_num
  try decide

/-- C8 (amended: only the edge is checked, by an `assert` inside `pop_it` —
an AssertionError, not a ConfigurationError raised beforehand — while the
ratio is never validated and the geometry computation runs for any ratio;
an unknown shell is the one configuration error reported with exit code 1):
an edge other than top/bottom makes `pop_it` fail before issuing anything,
any ratio reaches the geometry computation, and an unconfigured shell makes
`main` return 1. -/
theorem pop_it_assertion_and_unknown_shell (ws : Rect) (pos : String) (r : ℚ)
    (m : String) (conf : Conf) (s : String)
    (hpos1 : pos ≠ "top") (hpos2 : pos ≠ "bottom")
    (hs : (conf.shells.map Prod.fst).contains s = false) :
    pop_it ws m pos r = none ∧
    (pop_it ws m "top" r).isSome = true ∧
    main_exit_code conf (some s) = 1 := by
  refine ⟨?_, ?_, ?_⟩
  · rw [pop_it, if_neg (by simp [hpos1, hpos2])]
  · rw [pop_it, if_pos (Or.inl rfl)]
    rfl
  · simp only [main_exit_code]
    rw [if_neg (by rw [hs]; exact Bool.false_ne_true)]

/-- Witness for C8's amended theorem: edge `left`, ratio 1/4, unknown shell
`ruby`. -/
theorem pop_it_assertion_and_unknown_shell_witness :
    pop_it ⟨0, 0, 1920, 1080⟩ "m" "left" (1/4) = none ∧
    (pop_it ⟨0, 0, 1920, 1080⟩ "m" "top" (1/4)).isSome = true ∧
    main_exit_code confEx (some "ruby") = 1 :=
  pop_it_assertion_and_unknown_shell ⟨0, 0, 1920, 1080⟩ "left" (1/4) "m" confEx
    "ruby" (by decide) (by decide) (by decide)

/-- C9: for the selector entry point, whenever any container carrying a
quickterm mark (for any shell) is on the current workspace, the invocation
issues exactly the move-to-holding-area command for that container and
terminates — no menu, no spawn, no show command, no history write. -/
theorem select_hides_quickterm_on_current_ws (conf : Conf) (wsCons : List Con)
    (histList : Option (List String)) (menuRet : String) (tree : List Con)
    (curWs : Workspace) (events : List FocusEvent) (qt : Con) (rest : List Con)
    (h : find_marked_qt_pattern wsCons = qt :: rest) :
    toggle_quickterm_select conf wsCons histList menuRet tree curWs events =
      [Eff.i3 (Cmd.moveBack ("[con_id=" ++ toString qt.id ++ "]"))] := by
  simp only [toggle_quickterm_select, h, move_back]

/-- Witness for C9: a container marked `quickterm_shell` on the current
workspace. -/
theorem select_hides_quickterm_on_current_ws_witness :
    toggle_quickterm_select confEx [conEx] none "" [] wsEx [] =
      [Eff.i3 (Cmd.moveBack "[con_id=3]")] := by
  rw [select_hides_quickterm_on_current_ws confEx [conEx] none "" [] wsEx []
    conEx [] (by decide)]
  decide

/-- C10: when no quickterm window is on the current workspace and the menu's
returned string is not a configured shell name (the empty string of a
cancelled selection included), `toggle_quickterm_select` only ran the menu:
it returns without spawning, without issuing any window-manager command, and
without writing the history file. -/
theorem select_foreign_selection_is_noop (conf : Conf) (wsCons : List Con)
    (histList : Option (List String)) (menuRet : String) (tree : List Con)
    (curWs : Workspace) (events : List FocusEvent)
    (hm : find_marked_qt_pattern wsCons = [])
    (hs : (conf.shells.map Prod.fst).contains menuRet = false) :
    toggle_quickterm_select conf wsCons histList menuRet tree curWs events =
      [Eff.runMenu (menu_entries conf histList)] := by
  simp only [toggle_quickterm_select, hm, hs]
  simp

/-- Witness for C10: empty workspace subtree and a cancelled (empty-string)
selection. -/
theorem select_foreign_selection_is_noop_witness :
    toggle_quickterm_select confEx [] none "" [] wsEx [] =
      [Eff.runMenu ["js", "shell"]] := by
  rw [select_foreign_selection_is_noop confEx [] none "" [] wsEx [] (by decide)
    (by decide)]
  decide

end I3Quickterm
